import Mathlib

/-!
Verification of the layered protocol stack of the appium-ios-remotexpc
repository against its natural-language specification.

The development shallow-embeds the relevant source functions:

* `BPlist` — the binary property list encoder
  (`src/lib/plist/binary-plist-creator.ts`, class `BinaryPlistCreator`).
* `Usbmux` — the usbmuxd client (`byteSwap16`, `getDefaultSocket`,
  `Usbmux.connect`, the tagged waiter dispatch).
* `Lockdown` — `LockdownService.tryUpgradeToTLS` and its helpers.
* `Handshake` — the HTTP/2-framed XPC handshake state machine.

Buffers are modelled as `List Nat` of byte values, machine integers as
`Nat` / `Int` with explicit truncation where the source relies on
fixed-width arithmetic, and fallible code as `Except`.
-/

namespace BPlist

/-- Modelled from the spec: `constants.ts` is not part of the provided
sources.  The spec fixes the magic as the 8 bytes of the ASCII string
`bplist00`. -/
def magicAndVersion : List Nat :=
  [0x62, 0x70, 0x6c, 0x69, 0x73, 0x74, 0x30, 0x30]

/-- Modelled from the spec: `constants.ts` is not part of the provided
sources.  Type nibbles from spec section 4.1: null `0x00`, false `0x08`,
true `0x09`, int `0x1n`, real `0x2n`, date `0x33`, data `0x4L`,
ASCII string `0x5L`, UTF-16 string `0x6L`, array `0xAL`, dict `0xDL`. -/
def TYPE_NULL : Nat := 0x00
def TYPE_FALSE : Nat := 0x08
def TYPE_TRUE : Nat := 0x09
def TYPE_INT : Nat := 0x10
def TYPE_REAL : Nat := 0x20
def TYPE_DATE : Nat := 0x33
def TYPE_DATA : Nat := 0x40
def TYPE_STRING_ASCII : Nat := 0x50
def TYPE_STRING_UNICODE : Nat := 0x60
def TYPE_ARRAY : Nat := 0xA0
def TYPE_DICT : Nat := 0xD0

/-- The `PlistValue` data model (`src/lib/types.ts` collaborator):
null, booleans, numbers (integral numbers and `bigint` are kept as
separate constructors, mirroring the `typeof` dispatch of
`_createObjectData`; non-integral numbers are `real`), dates, byte
buffers, strings, arrays and ordered string-keyed dictionaries.
`real` and `date` carry the IEEE-754 bit pattern of the 8-byte
big-endian double that `writeDoubleBE` emits; floating-point
arithmetic itself is not modelled and no claim exercises it. -/
inductive PlistValue where
  | null
  | bool (b : Bool)
  | int (n : Int)
  | bigint (n : Int)
  | real (bits : Nat)
  | date (bits : Nat)
  | data (bytes : List Nat)
  | str (s : String)
  | array (items : List PlistValue)
  | dict (entries : List (String × PlistValue))

mutual

/-- Structural equality on `PlistValue`, used for the object-reference
map.  The source keys a JS `Map` by the value itself: primitives
(null, booleans, numbers, bigints, strings) compare by value, which
this relation mirrors exactly; distinct but structurally equal
aggregates are conflated, which no claim input contains. -/
def beqValue : PlistValue → PlistValue → Bool
  | .null, .null => true
  | .bool a, .bool b => a == b
  | .int a, .int b => a == b
  | .bigint a, .bigint b => a == b
  | .real a, .real b => a == b
  | .date a, .date b => a == b
  | .data a, .data b => a == b
  | .str a, .str b => a == b
  | .array a, .array b => beqValueList a b
  | .dict a, .dict b => beqEntryList a b
  | _, _ => false

def beqValueList : List PlistValue → List PlistValue → Bool
  | [], [] => true
  | a :: as, b :: bs => beqValue a b && beqValueList as bs
  | _, _ => false

def beqEntryList : List (String × PlistValue) → List (String × PlistValue) → Bool
  | [], [] => true
  | (ka, va) :: as, (kb, vb) :: bs => ka == kb && beqValue va vb && beqEntryList as bs
  | _, _ => false

end

instance : BEq PlistValue := ⟨beqValue⟩

/-- `_calculateMinByteSize`: the minimum of {1, 2, 4, 8} bytes needed
to represent a number. -/
def calculateMinByteSize (value : Nat) : Nat :=
  if value < 256 then 1
  else if value < 65536 then 2
  else if value < 4294967296 then 4
  else 8

/-- Big-endian byte string of `value` with fixed width `size` bytes
(the `_writeOffsetToBuffer` / `writeUIntBE` family). -/
def bytesBE (value : Nat) (size : Nat) : List Nat :=
  (List.range size).map (fun i => value / 256 ^ (size - 1 - i) % 256)

/-- Two's complement representation of an integer in `bits` bits, as a
natural number (what `writeInt8` / `writeInt16BE` / `writeInt32BE` /
`writeBigInt64BE` store for an in-range value). -/
def twosComplement (v : Int) (bits : Nat) : Nat :=
  (v % ((2 : Int) ^ bits)).toNat

/-- `_createIntHeader`: header record for a length that does not fit in
the 4-bit count nibble. -/
def createIntHeader (value : Nat) : List Nat :=
  if value < 256 then [TYPE_INT ||| 0, value]
  else if value < 65536 then (TYPE_INT ||| 1) :: bytesBE value 2
  else (TYPE_INT ||| 2) :: bytesBE value 4

/-- `_createIntegerData`, `number` branch: smallest of the 1/2/4/8-byte
signed encodings, except that non-negative values up to 255 use the
unsigned 1-byte form. -/
def createIntegerData (value : Int) : List Nat :=
  if 0 ≤ value ∧ value ≤ 255 then
    [TYPE_INT ||| 0, value.toNat]
  else if -128 ≤ value ∧ value ≤ 127 then
    [TYPE_INT ||| 0, twosComplement value 8]
  else if -32768 ≤ value ∧ value ≤ 32767 then
    (TYPE_INT ||| 1) :: bytesBE (twosComplement value 16) 2
  else if -2147483648 ≤ value ∧ value ≤ 2147483647 then
    (TYPE_INT ||| 2) :: bytesBE (twosComplement value 32) 4
  else
    (TYPE_INT ||| 3) :: bytesBE (twosComplement value 64) 8

/-- `_createIntegerData`, `bigint` branch: always the 8-byte form. -/
def createIntegerDataBigInt (value : Int) : List Nat :=
  (TYPE_INT ||| 3) :: bytesBE (twosComplement value 64) 8

/-- `_createBufferData`: data record with inline or extended length. -/
def createBufferData (value : List Nat) : List Nat :=
  let length := value.length
  let header :=
    if length < 15 then [TYPE_DATA ||| length]
    else (TYPE_DATA ||| 0x0f) :: createIntHeader length
  header ++ value

/-- UTF-16 code units of a character (surrogate pair above U+FFFF). -/
def utf16Units (c : Char) : List Nat :=
  let n := c.toNat
  if n < 0x10000 then [n]
  else [0xD800 + (n - 0x10000) / 0x400, 0xDC00 + (n - 0x10000) % 0x400]

/-- The byte string produced by `Buffer.from(value, 'utf16le')`: each
UTF-16 code unit as two bytes, low byte first. -/
def utf16leBytes (s : String) : List Nat :=
  (s.toList.flatMap utf16Units).flatMap (fun u => [u % 256, u / 256])

/-- `_createStringData`: ASCII strings use tag `0x5L` with the raw
bytes; any string with a code point above `0x7F` uses tag `0x6L`, a
length counted in UTF-16 code units, and the bytes of
`Buffer.from(value, 'utf16le')`, i.e. UTF-16 little-endian. -/
def createStringData (value : String) : List Nat :=
  let isAscii := value.toList.all (fun c => c.toNat ≤ 0x7F)
  let stringBuffer :=
    if isAscii then value.toList.map (fun c => c.toNat)
    else utf16leBytes value
  let length := if isAscii then value.toList.length else stringBuffer.length / 2
  let tag := if isAscii then TYPE_STRING_ASCII else TYPE_STRING_UNICODE
  let header :=
    if length < 15 then [tag ||| length]
    else (tag ||| 0x0f) :: createIntHeader length
  header ++ stringBuffer

/-- The effect of `_collectObjectsRecursive` on a value with no
children: append it to the table unless it is already present.
Dictionary keys are strings, hence always such leaves. -/
def collectLeaf (v : PlistValue) (table : List PlistValue) : List PlistValue :=
  if table.any (fun w => beqValue w v) then table else table ++ [v]

mutual

/-- `_collectObjectsRecursive`: pre-order depth-first traversal that
appends each not-yet-seen value to the object table; arrays recurse
into their items, dictionaries into each key (as a string value,
which is a leaf, collected by `collectLeaf`) and then into its
value. -/
def collectValue (v : PlistValue) (table : List PlistValue) : List PlistValue :=
  if table.any (fun w => beqValue w v) then table
  else
    let table := table ++ [v]
    match v with
    | .array items => collectItems items table
    | .dict entries => collectEntries entries table
    | _ => table
termination_by structural v

def collectItems (items : List PlistValue) (table : List PlistValue) : List PlistValue :=
  match items with
  | [] => table
  | item :: rest => collectItems rest (collectValue item table)
termination_by structural items

def collectEntries (entries : List (String × PlistValue)) (table : List PlistValue) :
    List PlistValue :=
  match entries with
  | [] => table
  | (k, v) :: rest => collectEntries rest (collectValue v (collectLeaf (.str k) table))
termination_by structural entries

end

/-- `_objectRefMap.get(value) ?? 0`: the object id is the index in the
object table; a missing value defaults to 0. -/
def refOf (table : List PlistValue) (v : PlistValue) : Nat :=
  (table.findIdx? (fun w => beqValue w v)).getD 0

/-- `_createArrayData`: header then one reference per element. -/
def createArrayData (refSize : Nat) (table : List PlistValue)
    (value : List PlistValue) : List Nat :=
  let length := value.length
  let header :=
    if length < 15 then [TYPE_ARRAY ||| length]
    else (TYPE_ARRAY ||| 0x0f) :: createIntHeader length
  header ++ value.flatMap (fun item => bytesBE (refOf table item) refSize)

/-- `_createDictionaryData`: header, then all key references, then all
value references, in insertion order. -/
def createDictionaryData (refSize : Nat) (table : List PlistValue)
    (value : List (String × PlistValue)) : List Nat :=
  let length := value.length
  let header :=
    if length < 15 then [TYPE_DICT ||| length]
    else (TYPE_DICT ||| 0x0f) :: createIntHeader length
  header ++ value.flatMap (fun kv => bytesBE (refOf table (.str kv.1)) refSize)
         ++ value.flatMap (fun kv => bytesBE (refOf table kv.2) refSize)

/-- `_createObjectData`: per-value dispatch exactly as in the source
(null, boolean, bigint, number — integer or float —, Date, Buffer,
string, array, dictionary). -/
def createObjectData (refSize : Nat) (table : List PlistValue) :
    PlistValue → List Nat
  | .null => [TYPE_NULL]
  | .bool b => [if b then TYPE_TRUE else TYPE_FALSE]
  | .bigint n => createIntegerDataBigInt n
  | .int n => createIntegerData n
  | .real bits => (TYPE_REAL ||| 3) :: bytesBE bits 8
  | .date bits => TYPE_DATE :: bytesBE bits 8
  | .data bytes => createBufferData bytes
  | .str s => createStringData s
  | .array items => createArrayData refSize table items
  | .dict entries => createDictionaryData refSize table entries

/-- `_createTrailer`: 6 zero bytes, offset size, reference size, then
object count, top object id (always 0) and offset-table offset, each
as 8 bytes big-endian. -/
def createTrailer (offsetSize refSize numObjects offsetTableOffset : Nat) : List Nat :=
  [0, 0, 0, 0, 0, 0, offsetSize, refSize]
    ++ bytesBE numObjects 8 ++ bytesBE 0 8 ++ bytesBE offsetTableOffset 8

/-- `BinaryPlistCreator.create` / exported `createBinaryPlist`:
collect the object table, emit the records while recording each
record's offset as the running length of the records emitted so far,
size the offset entries from the total record length, and append the
offset table and the trailer after the magic. -/
def createBinaryPlist (root : PlistValue) : List Nat :=
  let table := collectValue root []
  let refSize := calculateMinByteSize (table.length - 1)
  let objectData := table.map (createObjectData refSize table)
  let objectOffsets :=
    (List.range table.length).map
      (fun i => ((objectData.take i).map List.length).sum)
  let maxOffset := (objectData.map List.length).sum
  let offsetSize := calculateMinByteSize maxOffset
  let offsetTable := objectOffsets.flatMap (fun o => bytesBE o offsetSize)
  let offsetTableOffset := magicAndVersion.length + maxOffset
  let trailer := createTrailer offsetSize refSize table.length offsetTableOffset
  magicAndVersion ++ objectData.flatMap id ++ offsetTable ++ trailer

end BPlist

namespace BPlist

/-- Reads a big-endian byte string as a natural number. -/
def readBE (bytes : List Nat) : Nat :=
  bytes.foldl (fun acc b => acc * 256 + b) 0

/-- The 32-byte trailer of an encoded buffer. -/
def trailerOf (buf : List Nat) : List Nat :=
  buf.drop (buf.length - 32)

/-- The `offset_size` trailer field. -/
def offsetSizeField (buf : List Nat) : Nat := (trailerOf buf).getD 6 0

/-- The `ref_size` trailer field. -/
def refSizeField (buf : List Nat) : Nat := (trailerOf buf).getD 7 0

/-- The `num_objects` trailer field. -/
def numObjectsField (buf : List Nat) : Nat :=
  readBE (((trailerOf buf).drop 8).take 8)

/-- The `top_object_id` trailer field. -/
def topObjectField (buf : List Nat) : Nat :=
  readBE (((trailerOf buf).drop 16).take 8)

/-- The root dictionary of spec scenario 1: `{ "a": 1, "b": [true, null] }`. -/
def sampleDict : PlistValue :=
  .dict [("a", .int 1), ("b", .array [.bool true, .null])]

end BPlist

namespace BPlist

/-- Claim C1: the source encodes a string containing a code point above
`0x7F` with the `0x6` type nibble and a length in UTF-16 code units,
but writes the code units little-endian: for the one-character string
`é` (U+00E9) the record is `61 E9 00`, not the big-endian `61 00 E9`
that the claim states. -/
theorem createStringData_unicode_little_endian :
    createStringData "é" = [TYPE_STRING_UNICODE ||| 1, 0xE9, 0x00]
      ∧ createStringData "é" ≠ [TYPE_STRING_UNICODE ||| 1, 0x00, 0xE9] := by
  constructor
  · rfl
  · decide

/-- Claim C2: offset-table entries are not absolute file offsets.  For
the root `null` the buffer is the 8-byte magic, the 1-byte null record
(at absolute offset 8), a single offset-table entry holding `0`, and
the trailer; the entry records the offset relative to the start of the
object records, not from byte 0 of the buffer. -/
theorem createBinaryPlist_null_offset_entry_relative :
    createBinaryPlist .null
        = magicAndVersion ++ [TYPE_NULL] ++ [0x00] ++ createTrailer 1 1 1 9
      ∧ (createBinaryPlist .null).getD 8 99 = TYPE_NULL
      ∧ (createBinaryPlist .null).getD 9 99 = 0 := by
  refine ⟨by decide, by decide, by decide⟩

/-- Claim C3 (counterexample): encoding `{ "a": 1, "b": [true, null] }`
yields seven objects — the dict, `"a"`, `1`, `"b"`, the array, `true`
and `null` each get their own id — so the trailer does not report
`num_objects = 6` as the claim states. -/
theorem sampleDict_num_objects_ne_six :
    numObjectsField (createBinaryPlist sampleDict) ≠ 6 := by
  decide

/-- Claim C3 (amended): the buffer for `{ "a": 1, "b": [true, null] }`
begins with the bytes `62 70 6c 69 73 74 30 30` and its trailer
reports `num_objects = 7`, `top_object_id = 0`, `ref_size = 1` and
`offset_size = 1`. -/
theorem sampleDict_encoding_trailer :
    (createBinaryPlist sampleDict).take 8
        = [0x62, 0x70, 0x6c, 0x69, 0x73, 0x74, 0x30, 0x30]
      ∧ numObjectsField (createBinaryPlist sampleDict) = 7
      ∧ topObjectField (createBinaryPlist sampleDict) = 0
      ∧ refSizeField (createBinaryPlist sampleDict) = 1
      ∧ offsetSizeField (createBinaryPlist sampleDict) = 1 := by
  refine ⟨by decide, by decide, by decide, by decide, by decide⟩

/-- Claim C9: `_createIntegerData` uses the 1-byte form (tag `0x10`
plus one byte) both for every `0 ≤ n ≤ 255` and for every
`−128 ≤ m ≤ −1`; consequently the records for `n` and `n − 256`
coincide for every `128 ≤ n ≤ 255`, so the 1-byte encoding is not
injective on the union of the two ranges. -/
theorem createIntegerData_one_byte_overlap :
    (∀ n : Int, 0 ≤ n → n ≤ 255 → createIntegerData n = [0x10, n.toNat])
      ∧ (∀ m : Int, -128 ≤ m → m ≤ -1 →
          createIntegerData m = [0x10, (m + 256).toNat])
      ∧ (∀ n : Int, 128 ≤ n → n ≤ 255 →
          createIntegerData n = createIntegerData (n - 256)) := by
  have h1 : ∀ n : Int, 0 ≤ n → n ≤ 255 → createIntegerData n = [0x10, n.toNat] := by
    intro n hn0 hn1
    unfold createIntegerData
    rw [if_pos ⟨hn0, hn1⟩]
    rfl
  have h2 : ∀ m : Int, -128 ≤ m → m ≤ -1 →
      createIntegerData m = [0x10, (m + 256).toNat] := by
    intro m hm0 hm1
    unfold createIntegerData
    rw [if_neg (by omega), if_pos ⟨hm0, by omega⟩]
    have ht : twosComplement m 8 = (m + 256).toNat := by
      unfold twosComplement
      have h256 : ((2 : Int) ^ (8 : Nat)) = 256 := by norm_num
      rw [h256]
      omega
    rw [ht]
    rfl
  refine ⟨h1, h2, ?_⟩
  intro n hn0 hn1
  rw [h1 n (by omega) hn1, h2 (n - 256) (by omega) (by omega)]
  have ht2 : (n - 256 + 256).toNat = n.toNat := by omega
  rw [ht2]

/-- Claim C9 witness: the concrete records for `200` and `−56`
coincide. -/
theorem createIntegerData_one_byte_overlap_witness :
    createIntegerData 200 = createIntegerData (200 - 256) :=
  createIntegerData_one_byte_overlap.2.2 200 (by norm_num) (by norm_num)

end BPlist

namespace Usbmux

/-- `PROG_NAME`, the client identification sent with every request. -/
def PROG_NAME : String := "appium-internal"

/-- `CLIENT_VERSION_STRING`. -/
def CLIENT_VERSION_STRING : String := "appium-internal-1.0.0"

/-- `USBMUX_RESULT` codes. -/
def RESULT_OK : Nat := 0
def RESULT_BADCOMMAND : Nat := 1
def RESULT_BADDEV : Nat := 2
def RESULT_CONNREFUSED : Nat := 3

/-- `byteSwap16`: swap the two low bytes of a 16-bit value,
`((value & 0xff) << 8) | ((value >> 8) & 0xff)`. -/
def byteSwap16 (value : Nat) : Nat :=
  ((value &&& 0xff) <<< 8) ||| ((value >>> 8) &&& 0xff)

/-- The payload of the `Connect` request built by `Usbmux.connect`. -/
structure ConnectPayload where
  messageType : String
  progName : String
  clientVersionString : String
  deviceID : Nat
  portNumber : Nat
deriving DecidableEq

/-- `Usbmux.connect`, request side: the payload carries
`PortNumber: byteSwap16(port)`. -/
def connectRequestPayload (deviceID port : Nat) : ConnectPayload :=
  { messageType := "Connect"
  , progName := PROG_NAME
  , clientVersionString := CLIENT_VERSION_STRING
  , deviceID := deviceID
  , portNumber := byteSwap16 port }

/-- The fields of the muxer reply that `Usbmux.connect` inspects. -/
structure ResultPayload where
  messageType : String
  number : Nat
deriving DecidableEq

/-- What a successful `Connect` hands back: the splitter is shut down,
both pipes are detached, and the raw socket is returned to the
caller. -/
structure ConnectHandoff where
  splitterShutdown : Bool
  rawSocketReturned : Bool
deriving DecidableEq

/-- `Usbmux.connect`, response side: anything but `Result` is
unexpected; `Number = 0` shuts down the splitter and resolves with the
raw socket; `Number = 3` rejects as connection refused; any other
code rejects with that code. -/
def connectHandleResponse (port : Nat) (resp : ResultPayload) :
    Except String ConnectHandoff :=
  if resp.messageType ≠ "Result" then
    .error "Unexpected data"
  else if resp.number = RESULT_OK then
    .ok { splitterShutdown := true, rawSocketReturned := true }
  else if resp.number = RESULT_CONNREFUSED then
    .error ("Connection was refused to port " ++ toString port)
  else
    .error ("Connection failed with code " ++ toString resp.number)

/-- Claim C6: every `Usbmux.connect(deviceID, port)` request carries
`PortNumber = byteSwap16(port)` — port 62078 is sent as `0x7EF2` —
and the tagged reply is handled so that `{ Result, 0 }` shuts down
the splitter and resolves with the raw socket, `Number = 3` rejects
as connection refused, and any other non-zero code rejects with an
error carrying that code. -/
theorem connect_portswap_and_result_dispatch :
    (∀ d p, (connectRequestPayload d p).portNumber = byteSwap16 p)
      ∧ byteSwap16 62078 = 0x7EF2
      ∧ (∀ p, connectHandleResponse p ⟨"Result", 0⟩
            = .ok { splitterShutdown := true, rawSocketReturned := true })
      ∧ (∀ p, connectHandleResponse p ⟨"Result", 3⟩
            = .error ("Connection was refused to port " ++ toString p))
      ∧ (∀ p n, n ≠ 0 → n ≠ 3 → connectHandleResponse p ⟨"Result", n⟩
            = .error ("Connection failed with code " ++ toString n)) := by
  refine ⟨fun d p => rfl, by decide, fun p => rfl, fun p => rfl, ?_⟩
  intro p n h0 h3
  unfold connectHandleResponse
  rw [if_neg (by simp), if_neg (by simpa [RESULT_OK] using h0),
    if_neg (by simpa [RESULT_CONNREFUSED] using h3)]

/-- Claim C6 witness: concrete dispatch of a failure code. -/
theorem connect_portswap_and_result_dispatch_witness :
    connectHandleResponse 62078 ⟨"Result", 5⟩
      = .error ("Connection failed with code " ++ toString 5) :=
  connect_portswap_and_result_dispatch.2.2.2.2 62078 5 (by decide) (by decide)

end Usbmux

namespace Usbmux

/-- `DEFAULT_USBMUXD_SOCKET`, `USBMUXD_PORT`, `DEFAULT_USBMUXD_HOST`. -/
def DEFAULT_USBMUXD_SOCKET : String := "/var/run/usbmuxd"
def USBMUXD_PORT : Nat := 27015
def DEFAULT_USBMUXD_HOST : String := "127.0.0.1"

/-- The endpoint `getDefaultSocket` decides to dial: either the Unix
socket at a path (`net.createConnection(socketPath)`) or a TCP
host/port (`net.createConnection({port, host})`).  The port is
`Option Nat` because `parseInt` can produce `NaN` (modelled as
`none`). -/
inductive Endpoint where
  | unixSock (path : String)
  | tcp (host : String) (port : Option Nat)
deriving DecidableEq

/-- The optional fields of `SocketOptions` that `getDefaultSocket`
consults (`timeout` only limits the dial and is not modelled). -/
structure SocketOptions where
  socketPath : Option String := none
  socketPort : Option Nat := none
  socketHost : Option String := none

/-- JS truthiness of an optional string: absent and empty are falsy. -/
def jsTruthyStr : Option String → Bool
  | none => false
  | some s => s != ""

/-- JS truthiness of an optional number: absent and zero are falsy. -/
def jsTruthyNat : Option Nat → Bool
  | none => false
  | some n => n != 0

/-- JS `String.prototype.split(sep)` for a one-character separator,
on character lists. -/
def splitCharsOn (sep : Char) : List Char → List (List Char)
  | [] => [[]]
  | c :: rest =>
    let r := splitCharsOn sep rest
    if c = sep then [] :: r
    else match r with
      | [] => [[c]]
      | h :: t => (c :: h) :: t

/-- JS `split(':')` on strings. -/
def jsSplitColon (s : String) : List String :=
  (splitCharsOn ':' s.toList).map (fun cs => String.mk cs)

/-- `parseInt(s, 10)` as used on the port part of
`USBMUXD_SOCKET_ADDRESS`: the leading run of decimal digits, `none`
for `NaN` when there is none (sign and whitespace handling is not
exercised here). -/
def jsParseInt (s : String) : Option Nat :=
  let digits := s.toList.takeWhile Char.isDigit
  if digits.isEmpty then none
  else some (digits.foldl (fun acc c => acc * 10 + (c.toNat - 48)) 0)

/-- `replace(/^(unix):/i, '')`: drop one leading case-insensitive
`unix:` scheme. -/
def stripUnixScheme (s : String) : String :=
  if (s.toList.take 5).map Char.toLower = ['u', 'n', 'i', 'x', ':'] then
    String.mk (s.toList.drop 5)
  else s

/-- `/microsoft/i.test(os.release())`, the WSL1 detection. -/
def containsMicrosoft (s : String) : Bool :=
  let l := s.toList.map Char.toLower
  (List.range (l.length + 1)).any
    (fun i => ['m', 'i', 'c', 'r', 'o', 's', 'o', 'f', 't'].isPrefixOf (l.drop i))

/-- The mutable `defaults` record of `getDefaultSocket`. -/
structure MuxDefaults where
  socketPath : String
  socketPort : Option Nat
  socketHost : String

/-- `getDefaultSocket`, with its effects made explicit: `env` is
`process.env.USBMUXD_SOCKET_ADDRESS`, `fileEx` is the
`fs.promises.access` probe, `platform` is `process.platform` and
`osRelease` is `os.release()`.  The function decides which endpoint
to dial, or fails when the Unix socket is missing on a platform
without the loopback fallback. -/
def getDefaultSocket (env : Option String) (opts : SocketOptions)
    (fileEx : String → Bool) (platform osRelease : String) :
    Except String Endpoint :=
  let defaults : MuxDefaults :=
    { socketPath := DEFAULT_USBMUXD_SOCKET
    , socketPort := some USBMUXD_PORT
    , socketHost := DEFAULT_USBMUXD_HOST }
  let defaults :=
    if jsTruthyStr env && !jsTruthyStr opts.socketPath
        && !jsTruthyNat opts.socketPort && !jsTruthyStr opts.socketHost then
      let usbmuxdSocketAddress := stripUnixScheme (env.getD "")
      let parts := jsSplitColon usbmuxdSocketAddress
      let ip := parts.getD 0 ""
      let port := parts[1]?
      if ip != "" && (match port with | some p => p != "" | none => false) then
        { defaults with socketHost := ip, socketPort := jsParseInt (port.getD "") }
      else
        { defaults with socketPath := usbmuxdSocketAddress }
    else defaults
  let socketPath := opts.socketPath.getD defaults.socketPath
  let socketPort := match opts.socketPort with
    | some p => some p
    | none => defaults.socketPort
  let socketHost := opts.socketHost.getD defaults.socketHost
  if fileEx socketPath then
    .ok (.unixSock socketPath)
  else if platform == "win32" || (platform == "linux" && containsMicrosoft osRelease) then
    .ok (.tcp socketHost socketPort)
  else
    .error ("The usbmuxd socket at " ++ socketPath ++ " does not exist or is not accessible")

/-- Claim C7 (counterexample): with `USBMUXD_SOCKET_ADDRESS` set to the
HOST:PORT form `127.0.0.1:5000`, no explicit options, and
`/var/run/usbmuxd` present, the code dials the default Unix socket —
the environment variable does not take priority over it, contrary to
the claimed discovery order. -/
theorem getDefaultSocket_env_hostport_loses_to_unix :
    getDefaultSocket (some "127.0.0.1:5000") {}
        (fun p => p == "/var/run/usbmuxd") "linux" "6.1.0-generic"
      = .ok (.unixSock "/var/run/usbmuxd")
      ∧ Endpoint.unixSock "/var/run/usbmuxd" ≠ .tcp "127.0.0.1" (some 5000) := by
  refine ⟨by rfl, by decide⟩

end Usbmux

namespace Usbmux

/-- Claim C7 (amended): resolution order of `getDefaultSocket` with no
explicit options.  An environment address in `unix:PATH` or plain-path
form replaces the default Unix path and wins when that path exists; a
HOST:PORT form only replaces the loopback fallback, so an existing
`/var/run/usbmuxd` still takes priority over it; the (possibly
overridden) TCP endpoint is dialled only on Windows or WSL1 when the
Unix-path candidate does not exist; with no candidate at all the call
fails with a socket-unavailable error. -/
theorem getDefaultSocket_resolution (fileEx : String → Bool) (platform osRelease : String) :
    (∀ e, e ≠ "" → jsSplitColon (stripUnixScheme e) = [stripUnixScheme e] →
        fileEx (stripUnixScheme e) = true →
        getDefaultSocket (some e) {} fileEx platform osRelease
          = .ok (.unixSock (stripUnixScheme e)))
      ∧ (∀ e h p, e ≠ "" → jsSplitColon (stripUnixScheme e) = [h, p] → h ≠ "" → p ≠ "" →
          fileEx "/var/run/usbmuxd" = true →
          getDefaultSocket (some e) {} fileEx platform osRelease
            = .ok (.unixSock "/var/run/usbmuxd"))
      ∧ (∀ e h p, e ≠ "" → jsSplitColon (stripUnixScheme e) = [h, p] → h ≠ "" → p ≠ "" →
          fileEx "/var/run/usbmuxd" = false →
          (platform = "win32" ∨ platform = "linux" ∧ containsMicrosoft osRelease = true) →
          getDefaultSocket (some e) {} fileEx platform osRelease
            = .ok (.tcp h (jsParseInt p)))
      ∧ (fileEx "/var/run/usbmuxd" = true →
          getDefaultSocket none {} fileEx platform osRelease
            = .ok (.unixSock "/var/run/usbmuxd"))
      ∧ (fileEx "/var/run/usbmuxd" = false →
          (platform = "win32" ∨ platform = "linux" ∧ containsMicrosoft osRelease = true) →
          getDefaultSocket none {} fileEx platform osRelease
            = .ok (.tcp "127.0.0.1" (some 27015)))
      ∧ (fileEx "/var/run/usbmuxd" = false → platform ≠ "win32" →
          (platform = "linux" → containsMicrosoft osRelease = false) →
          getDefaultSocket none {} fileEx platform osRelease
            = .error ("The usbmuxd socket at /var/run/usbmuxd does not exist or is not accessible")) := by
  refine ⟨?_, ?_, ?_, ?_, ?_, ?_⟩
  · intro e he hsplit hfx
    simp [getDefaultSocket, jsTruthyStr, jsTruthyNat, DEFAULT_USBMUXD_SOCKET, DEFAULT_USBMUXD_HOST, USBMUXD_PORT, hsplit, he, hfx]
  · intro e h p he hsplit hh hp hfx
    simp [getDefaultSocket, jsTruthyStr, jsTruthyNat, DEFAULT_USBMUXD_SOCKET, DEFAULT_USBMUXD_HOST, USBMUXD_PORT, hsplit, he, hh, hp, hfx]
  · intro e h p he hsplit hh hp hfx hplat
    rcases hplat with hw | ⟨hl, hm⟩
    · subst hw
      simp [getDefaultSocket, jsTruthyStr, jsTruthyNat, DEFAULT_USBMUXD_SOCKET, DEFAULT_USBMUXD_HOST, USBMUXD_PORT, hsplit, he, hh, hp, hfx]
    · subst hl
      simp [getDefaultSocket, jsTruthyStr, jsTruthyNat, DEFAULT_USBMUXD_SOCKET, DEFAULT_USBMUXD_HOST, USBMUXD_PORT, hsplit, he, hh, hp, hfx, hm]
  · intro hfx
    simp [getDefaultSocket, jsTruthyStr, jsTruthyNat, DEFAULT_USBMUXD_SOCKET, DEFAULT_USBMUXD_HOST, USBMUXD_PORT, hfx]
  · intro hfx hplat
    rcases hplat with hw | ⟨hl, hm⟩
    · subst hw
      simp [getDefaultSocket, jsTruthyStr, jsTruthyNat, DEFAULT_USBMUXD_SOCKET, DEFAULT_USBMUXD_HOST, USBMUXD_PORT, hfx, DEFAULT_USBMUXD_HOST, USBMUXD_PORT]
    · subst hl
      simp [getDefaultSocket, jsTruthyStr, jsTruthyNat, DEFAULT_USBMUXD_SOCKET, DEFAULT_USBMUXD_HOST, USBMUXD_PORT, hfx, hm, DEFAULT_USBMUXD_HOST, USBMUXD_PORT]
  · intro hfx hw hm
    simp [getDefaultSocket, jsTruthyStr, jsTruthyNat, DEFAULT_USBMUXD_SOCKET, DEFAULT_USBMUXD_HOST, USBMUXD_PORT, hfx, hw, DEFAULT_USBMUXD_SOCKET]
    intro hl
    simp [hl] at hm
    simp [hm]

/-- Claim C7 witness: concrete instantiation of the amended resolution
order — HOST:PORT environment form, Unix socket absent, Windows. -/
theorem getDefaultSocket_resolution_witness :
    getDefaultSocket (some "127.0.0.1:5000") {} (fun _ => false) "win32" "10.0"
      = .ok (.tcp "127.0.0.1" (jsParseInt "5000")) :=
  (getDefaultSocket_resolution (fun _ => false) "win32" "10.0").2.2.1
    "127.0.0.1:5000" "127.0.0.1" "5000" (by decide) (by decide) (by decide) (by decide)
    (by decide) (Or.inl rfl)

end Usbmux

namespace Usbmux

/-- The request/response bookkeeping of one `Usbmux` instance:
`tag` is the `_tag` counter, `pending` the keys of
`_responseCallbacks` in registration order, `settled` the log of tags
whose waiter promise has been resolved or rejected. -/
structure DispatchState where
  tag : Nat
  pending : List Nat
  settled : List Nat

/-- The events that touch `_responseCallbacks` in the single-threaded
event loop: `request` is `_receivePlistPromise` (every operation —
`readBUID`, `readPairRecord`, `listDevices`, `connect` — allocates
`const tag = this._tag++` and registers a callback under it);
`response t` is `_handleData` for a frame with `header.tag = t`
(the callback resolves or rejects and deletes the entry in its
`finally`); `timerFired t` is the timeout for tag `t` (deletes the
entry and rejects if it is still present); `settledCleanup t` is the
`receivePromise.catch(..).finally(..)` cleanup (deletes the entry if
still present, without settling anything). -/
inductive DispatchEvent where
  | request
  | response (t : Nat)
  | timerFired (t : Nat)
  | settledCleanup (t : Nat)

/-- One event-loop step of the dispatch bookkeeping. -/
def dispatchStep (s : DispatchState) : DispatchEvent → DispatchState
  | .request =>
      { s with tag := s.tag + 1, pending := s.pending ++ [s.tag] }
  | .response t =>
      if t ∈ s.pending then
        { s with pending := s.pending.erase t, settled := s.settled ++ [t] }
      else s
  | .timerFired t =>
      if t ∈ s.pending then
        { s with pending := s.pending.erase t, settled := s.settled ++ [t] }
      else s
  | .settledCleanup t =>
      { s with pending := s.pending.erase t }

/-- A fresh `Usbmux` instance: `this._tag = 0`,
`this._responseCallbacks = {}`. -/
def dispatchInit : DispatchState := { tag := 0, pending := [], settled := [] }

/-- The dispatch state after a sequence of events. -/
def dispatchRun (events : List DispatchEvent) : DispatchState :=
  events.foldl dispatchStep dispatchInit

/-- Invariant of the dispatch bookkeeping. -/
def DispatchInv (s : DispatchState) : Prop :=
  s.pending.Nodup ∧ s.settled.Nodup
    ∧ (∀ t ∈ s.pending, t < s.tag) ∧ (∀ t ∈ s.settled, t < s.tag)
    ∧ (∀ t ∈ s.settled, t ∉ s.pending)

theorem dispatchStep_inv {s : DispatchState} (hs : DispatchInv s) (e : DispatchEvent) :
    DispatchInv (dispatchStep s e) := by
  obtain ⟨hpn, hsn, hpt, hst, hdisj⟩ := hs
  cases e with
  | request =>
    refine ⟨?_, hsn, ?_, ?_, ?_⟩
    · simp only [dispatchStep, List.nodup_append, List.nodup_cons, List.nodup_nil]
      exact ⟨hpn, by simp, by simp [List.disjoint_singleton]; intro h; exact absurd (hpt _ h) (by simp)⟩
    · intro t ht
      simp only [dispatchStep, List.mem_append, List.mem_singleton] at ht
      rcases ht with h | h
      · exact Nat.lt_succ_of_lt (hpt t h)
      · simp [dispatchStep, h]
    · intro t ht
      exact Nat.lt_succ_of_lt (hst t ht)
    · intro t ht hmem
      simp only [dispatchStep, List.mem_append, List.mem_singleton] at hmem
      rcases hmem with h | h
      · exact hdisj t ht h
      · exact absurd (hst t ht) (by simp [h])
  | response t =>
    by_cases hmem : t ∈ s.pending
    · refine ⟨?_, ?_, ?_, ?_, ?_⟩ <;>
        simp only [dispatchStep, if_pos hmem]
      · exact hpn.erase t
      · simp only [List.nodup_append, List.nodup_cons, List.nodup_nil]
        exact ⟨hsn, by simp, by simp [List.disjoint_singleton]; exact fun h => hdisj t h hmem⟩
      · intro u hu
        exact hpt u (List.mem_of_mem_erase hu)
      · intro u hu
        simp only [List.mem_append, List.mem_singleton] at hu
        rcases hu with h | h
        · exact hst u h
        · exact h ▸ hpt t hmem
      · intro u hu humem
        simp only [List.mem_append, List.mem_singleton] at hu
        rcases hu with h | h
        · exact hdisj u h (List.mem_of_mem_erase humem)
        · subst h
          exact (hpn.not_mem_erase) humem
    · simpa only [dispatchStep, if_neg hmem] using ⟨hpn, hsn, hpt, hst, hdisj⟩
  | timerFired t =>
    by_cases hmem : t ∈ s.pending
    · refine ⟨?_, ?_, ?_, ?_, ?_⟩ <;>
        simp only [dispatchStep, if_pos hmem]
      · exact hpn.erase t
      · simp only [List.nodup_append, List.nodup_cons, List.nodup_nil]
        exact ⟨hsn, by simp, by simp [List.disjoint_singleton]; exact fun h => hdisj t h hmem⟩
      · intro u hu
        exact hpt u (List.mem_of_mem_erase hu)
      · intro u hu
        simp only [List.mem_append, List.mem_singleton] at hu
        rcases hu with h | h
        · exact hst u h
        · exact h ▸ hpt t hmem
      · intro u hu humem
        simp only [List.mem_append, List.mem_singleton] at hu
        rcases hu with h | h
        · exact hdisj u h (List.mem_of_mem_erase humem)
        · subst h
          exact (hpn.not_mem_erase) humem
    · simpa only [dispatchStep, if_neg hmem] using ⟨hpn, hsn, hpt, hst, hdisj⟩
  | settledCleanup t =>
    refine ⟨hpn.erase t, hsn, ?_, hst, ?_⟩
    · intro u hu
      exact hpt u (List.mem_of_mem_erase hu)
    · intro u hu humem
      exact hdisj u hu (List.mem_of_mem_erase humem)

theorem dispatchRun_inv (events : List DispatchEvent) : DispatchInv (dispatchRun events) := by
  have hinit : DispatchInv dispatchInit := by
    refine ⟨List.nodup_nil, List.nodup_nil, ?_, ?_, ?_⟩ <;> simp [dispatchInit]
  rw [dispatchRun]
  generalize dispatchInit = s at hinit ⊢
  induction events generalizing s with
  | nil => simpa using hinit
  | cons e rest ih =>
    simpa using ih (dispatchStep s e) (dispatchStep_inv hinit e)

/-- Claim C10: tags are allocated by post-incrementing `_tag`, so the
outstanding waiters of one `Usbmux` instance always carry pairwise
distinct tags; a waiter is settled at most once (the settle log is
duplicate-free), and no settled tag keeps an entry in the callback
map. -/
theorem dispatch_tags_distinct_settled_once (events : List DispatchEvent) :
    (dispatchRun events).pending.Nodup
      ∧ (dispatchRun events).settled.Nodup
      ∧ ∀ t ∈ (dispatchRun events).settled, t ∉ (dispatchRun events).pending := by
  obtain ⟨h1, h2, _, _, h5⟩ := dispatchRun_inv events
  exact ⟨h1, h2, h5⟩

end Usbmux

namespace Lockdown

/-- The pair-record fields that `tryUpgradeToTLS` and `getPairRecord`
consult (`PairRecord` carries further certificate material that is
never read here).  `none` models an absent property; an empty string
is present but falsy in JS, so both are treated as missing by the
code. -/
structure PairRecord where
  hostCertificate : Option String := none
  hostPrivateKey : Option String := none
  hostID : Option String := none
  systemBUID : Option String := none

/-- JS truthiness of an optional string property. -/
def truthy : Option String → Bool
  | none => false
  | some s => s != ""

/-- `LockdownService.getPairRecord`: fetch the record from usbmuxd
(`fetched` is what `usbmux.readPairRecord(udid)` resolved with, `none`
when the muxer had no `PairRecordData`) and throw unless both
`HostCertificate` and `HostPrivateKey` are present. -/
def getPairRecord (fetched : Option PairRecord) : Except String PairRecord :=
  match fetched with
  | none => .error "Pair record missing certificate or key"
  | some record =>
    if !truthy record.hostCertificate || !truthy record.hostPrivateKey then
      .error "Pair record missing certificate or key"
    else .ok record

/-- The transport the connection ends up on. -/
inductive Transport where
  | plain
  | tls
deriving DecidableEq

/-- `LockdownService.tryUpgradeToTLS`, with its I/O made explicit:
`fetched` is the muxer's answer to `readPairRecord`, and
`enableSessionSSL` is what the device's `StartSession` response would
report.  The result is the final `_isTLS` flag, `.error` when the
method rejects.  The session and socket errors of the later steps are
not modelled; no claim depends on them. -/
def tryUpgradeToTLS (fetched : Option PairRecord) (enableSessionSSL : Bool) :
    Except String Transport :=
  match getPairRecord fetched with
  | .error e => .error e
  | .ok pairRecord =>
    if !truthy pairRecord.hostCertificate || !truthy pairRecord.hostPrivateKey
        || !truthy pairRecord.hostID || !truthy pairRecord.systemBUID then
      .ok .plain
    else if !enableSessionSSL then
      .ok .plain
    else
      .ok .tls

/-- `LockdownService.sendAndReceive` dispatch: the TLS plist service is
used only when `_isTLS` is set (and `_plistAfterTLS` exists, which
the upgrade sets together with the flag); otherwise the plain
`_plistService`. -/
def sendAndReceiveTransport : Transport → Transport
  | .plain => .plain
  | .tls => .tls

/-- Claim C8 (counterexample): a pair record missing only
`HostCertificate` does not make `tryUpgradeToTLS` return normally —
`getPairRecord` throws `Pair record missing certificate or key`, so
the promise rejects (the constructor catches and logs it). -/
theorem tryUpgradeToTLS_missing_cert_rejects :
    tryUpgradeToTLS
        (some { hostPrivateKey := some "key", hostID := some "host"
              , systemBUID := some "buid" }) true
      = .error "Pair record missing certificate or key" := by
  rfl

/-- Claim C8 (amended): a pair record with certificate and key but
missing `HostID` or `SystemBUID` makes `tryUpgradeToTLS` return
normally without upgrading, and the connection stays on the plain
transport; a record missing `HostCertificate` or `HostPrivateKey`
(or no record at all) makes it reject from the pair-record fetch.  In
every such case no TLS upgrade is performed and `sendAndReceive`
keeps using the plain plist service. -/
theorem tryUpgradeToTLS_missing_fields :
    (∀ r : PairRecord, ∀ ssl : Bool,
        truthy r.hostCertificate = true → truthy r.hostPrivateKey = true →
        (truthy r.hostID = false ∨ truthy r.systemBUID = false) →
        tryUpgradeToTLS (some r) ssl = .ok .plain
          ∧ sendAndReceiveTransport .plain = .plain)
      ∧ (∀ r : PairRecord, ∀ ssl : Bool,
          (truthy r.hostCertificate = false ∨ truthy r.hostPrivateKey = false) →
          tryUpgradeToTLS (some r) ssl = .error "Pair record missing certificate or key")
      ∧ (∀ ssl : Bool,
          tryUpgradeToTLS none ssl = .error "Pair record missing certificate or key") := by
  refine ⟨?_, ?_, fun ssl => rfl⟩
  · intro r ssl hc hk hmiss
    refine ⟨?_, rfl⟩
    unfold tryUpgradeToTLS getPairRecord
    rcases hmiss with h | h <;>
      simp [hc, hk, h]
  · intro r ssl hmiss
    unfold tryUpgradeToTLS getPairRecord
    rcases hmiss with h | h <;>
      simp [h]

/-- Claim C8 witness: concrete record with certificate and key but no
`HostID`. -/
theorem tryUpgradeToTLS_missing_fields_witness :
    tryUpgradeToTLS
        (some { hostCertificate := some "cert", hostPrivateKey := some "key"
              , systemBUID := some "buid" }) true
      = .ok .plain :=
  (tryUpgradeToTLS_missing_fields.1
    { hostCertificate := some "cert", hostPrivateKey := some "key"
    , systemBUID := some "buid" } true (by decide) (by decide) (Or.inl (by decide))).1

end Lockdown

namespace Handshake

/-- Modelled from the spec: `Constants.js` is not part of the provided
sources.  Spec section 6 fixes `ROOT_CHANNEL = 1`, `REPLY_CHANNEL = 3`,
`XPC_FLAGS_ALWAYS_SET = 0x00000001`,
`XPC_FLAGS_INIT_HANDSHAKE = 0x00400000`, and the HTTP/2 client preface
`PRI * HTTP/2.0\r\n\r\nSM\r\n\r\n`. -/
def ROOT_CHANNEL : Nat := 1
def REPLY_CHANNEL : Nat := 3
def XPC_FLAGS_ALWAYS_SET : Nat := 0x00000001
def XPC_FLAGS_INIT_HANDSHAKE : Nat := 0x00400000

/-- The bytes of the HTTP/2 client preface
`PRI * HTTP/2.0\r\n\r\nSM\r\n\r\n`. -/
def HTTP2_MAGIC : List Nat :=
  [0x50, 0x52, 0x49, 0x20, 0x2a, 0x20, 0x48, 0x54, 0x54, 0x50,
   0x2f, 0x32, 0x2e, 0x30, 0x0d, 0x0a, 0x0d, 0x0a, 0x53, 0x4d,
   0x0d, 0x0a, 0x0d, 0x0a]

/-- Modelled from the spec: `HandshakeFrames.js` is not under `src/`.
Spec section 4.6 fixes the SETTINGS identifiers
`MAX_CONCURRENT_STREAMS = 3` and `INITIAL_WINDOW_SIZE = 4`. -/
def MAX_CONCURRENT_STREAMS : Nat := 3
def INITIAL_WINDOW_SIZE : Nat := 4

/-- The body of an XPC message (`XPCProtocol.js` collaborator): the
handshake sends an empty dictionary and `null`; `sendRequest` sends an
arbitrary caller object. -/
inductive XpcBody where
  | null
  | bool (b : Bool)
  | int (n : Int)
  | str (s : String)
  | data (bytes : List Nat)
  | array (items : List XpcBody)
  | dict (entries : List (String × XpcBody))

/-- An `XPCMessage` as constructed by the handshake code: wire flags,
message id and body. -/
structure XPCMessage where
  flags : Nat
  id : Nat
  body : XpcBody

/-- Modelled from the spec: the frame classes of `HandshakeFrames.js`
are not under `src/`.  Each constructor carries exactly the arguments
the handshake code passes to `new SettingsFrame` / `WindowUpdateFrame`
/ `HeadersFrame` / `DataFrame`; a DATA payload is kept as the
structured `XPCMessage` it encodes (`encodeMessage` of
`XPCProtocol.js` is likewise outside `src/`), and the settings record
is kept as its (numerically ascending) key/value list. -/
inductive HFrame where
  | settings (streamId : Nat) (settings : Option (List (Nat × Nat))) (flags : List String)
  | windowUpdate (streamId : Nat) (increment : Nat)
  | headers (streamId : Nat) (headerBlock : List Nat) (flags : List String)
  | data (streamId : Nat) (msg : XPCMessage) (flags : List String)

/-- One chunk written to the socket: the raw preface bytes or a
serialized frame. -/
inductive Wire where
  | raw (bytes : List Nat)
  | frame (f : HFrame)

/-- The per-connection state of `Handshake`: `nextMessageId` for the
ROOT and REPLY channels. -/
structure HState where
  rootNextId : Nat
  replyNextId : Nat

/-- The `Handshake` constructor initializes both channels to 0. -/
def initHState : HState := { rootNextId := 0, replyNextId := 0 }

/-- `Handshake.sendRequest`: a DATA frame on the ROOT channel whose
XPC message has `flags = XPC_FLAGS_ALWAYS_SET`, the current
`nextMessageId[ROOT_CHANNEL]` as id and the caller's body; the
state is left untouched. -/
def sendRequest (s : HState) (body : XpcBody) : HState × Wire :=
  (s, .frame (.data ROOT_CHANNEL
    { flags := XPC_FLAGS_ALWAYS_SET, id := s.rootNextId, body := body } []))

/-- `Handshake.perform`: the nine writes of the channel
initialization, in program order, together with the state updates of
steps 6 and 8. -/
def perform (s : HState) : HState × List Wire :=
  let w1 := Wire.raw HTTP2_MAGIC
  let w2 := Wire.frame (.settings 0
    (some [(MAX_CONCURRENT_STREAMS, 100), (INITIAL_WINDOW_SIZE, 1048576)]) [])
  let w3 := Wire.frame (.windowUpdate 0 983041)
  let w4 := Wire.frame (.headers ROOT_CHANNEL [] ["END_HEADERS"])
  let step5 := sendRequest s (.dict [])
  let s5 := step5.1
  let w5 := step5.2
  let w6 := Wire.frame (.data ROOT_CHANNEL { flags := 0x0201, id := 0, body := .null } [])
  let s6 := { s5 with rootNextId := s5.rootNextId + 1 }
  let w7 := Wire.frame (.headers REPLY_CHANNEL [] ["END_HEADERS"])
  let w8 := Wire.frame (.data REPLY_CHANNEL
    { flags := XPC_FLAGS_ALWAYS_SET ||| XPC_FLAGS_INIT_HANDSHAKE, id := 0, body := .null } [])
  let s8 := { s6 with replyNextId := s6.replyNextId + 1 }
  let w9 := Wire.frame (.settings 0 none ["ACK"])
  (s8, [w1, w2, w3, w4, w5, w6, w7, w8, w9])

/-- Claim C4: starting from the freshly constructed state,
`Handshake.perform` writes exactly, and in this order: the HTTP/2
client preface; a SETTINGS frame on stream 0 with
`MAX_CONCURRENT_STREAMS = 100` and `INITIAL_WINDOW_SIZE = 1048576`; a
WINDOW_UPDATE of 983041 on stream 0; a HEADERS frame with
`END_HEADERS` on stream 1; a DATA frame on stream 1 whose XPC message
has `flags = 0x1`, `id = 0` and an empty dictionary body; a DATA
frame on stream 1 with `flags = 0x0201`, `id = 0` and null body; a
HEADERS frame with `END_HEADERS` on stream 3; a DATA frame on stream
3 with `flags = ALWAYS_SET ||| INIT_HANDSHAKE`, `id = 0` and null
body; and a SETTINGS ACK on stream 0 — and it completes with
`next_id[ROOT] = 1` and `next_id[REPLY] = 1`. -/
theorem perform_nine_steps :
    perform initHState =
      ({ rootNextId := 1, replyNextId := 1 },
        [ .raw HTTP2_MAGIC,
          .frame (.settings 0 (some [(3, 100), (4, 1048576)]) []),
          .frame (.windowUpdate 0 983041),
          .frame (.headers 1 [] ["END_HEADERS"]),
          .frame (.data 1 { flags := 0x1, id := 0, body := .dict [] } []),
          .frame (.data 1 { flags := 0x0201, id := 0, body := .null } []),
          .frame (.headers 3 [] ["END_HEADERS"]),
          .frame (.data 3 { flags := 0x400001, id := 0, body := .null } []),
          .frame (.settings 0 none ["ACK"]) ]) := by
  rfl

/-- Claim C5 (counterexample): after the handshake, two successive
`sendRequest` calls put the same id (1) on the wire — `sendRequest`
never increments `nextMessageId[ROOT_CHANNEL]`, so the ids are not
strictly increasing. -/
theorem sendRequest_id_does_not_increase :
    (sendRequest (perform initHState).1 (.dict [])).2
        = .frame (.data 1 { flags := 1, id := 1, body := .dict [] } [])
      ∧ (sendRequest (sendRequest (perform initHState).1 (.dict [])).1 (.dict [])).2
        = .frame (.data 1 { flags := 1, id := 1, body := .dict [] } [])
      ∧ (sendRequest (perform initHState).1 (.dict [])).1 = (perform initHState).1 := by
  exact ⟨rfl, rfl, rfl⟩

/-- Claim C5 (amended): every `sendRequest` sends a DATA frame on the
ROOT channel (stream 1) with `flags = ALWAYS_SET` and the current
`next_id[ROOT]` as id, and leaves `next_id` unchanged, so successive
calls on the same connection all carry the same id. -/
theorem sendRequest_uses_current_id_unchanged (s : HState) (body : XpcBody) :
    sendRequest s body
      = (s, .frame (.data 1 { flags := 1, id := s.rootNextId, body := body } [])) := by
  rfl

end Handshake
